import Mathlib

/-!
Verification of the sys-wiz interactive package-management wizard.

This file gives a shallow embedding of the wizard's core logic:

* `shlexSplit` / `shQuote` / `shlexJoin` — faithful models of CPython's
  `shlex.split` (POSIX mode, `whitespace_split=True`, no comments),
  `shlex.quote` and `shlex.join`, restricted to the character classes the
  CPython implementations actually test (`shlex.whitespace = " \t\r\n"`,
  the ASCII safe set of `shlex._find_unsafe`).
* `CommandDef`, `COMMANDS`, `COMMANDS_top` — the operation catalogs of
  `syswiz/dnf/definitions.py` and `dnf/definitions.py`.
* `renderPreview` — `MainMenu.show_preview` of `syswiz/app.py`
  (`shlex.quote` + `str.format` substitution of the single placeholder).
* `run_process` / `finishedLines` — `ExecutionScreen.run_process` and
  `ExecutionScreen.finished` of `syswiz/app.py`.
* `variantArgv` / `variantCmdStr` — the command construction of the
  top-level variant (`screens/execution.py`).
* `ensure_sudo` / `launcher_main` — `syswiz/utils/system.py` and
  `sys_wiz_launcher.py`.
* `navEnter` / `navGoBack` / `replayPtr` — breadcrumb navigation of the
  top-level `app.py` (`MainMenu.on_list_view_selected`).
* `onConfirm` — `InputRequestScreen.on_button_pressed` of `syswiz/app.py`.

Special characters (quotes, backslash, braces) are written with
`Char.ofNat` / escape codes throughout.
-/

/-! ### Characters and character classes -/

/-- The single-quote character. -/
def sqCh : Char := Char.ofNat 39

/-- The double-quote character. -/
def dqCh : Char := Char.ofNat 34

/-- The backslash character (the sole member of `shlex.escape`). -/
def bsCh : Char := Char.ofNat 92

/-- The left brace. -/
def lbrace : Char := Char.ofNat 123

/-- The right brace. -/
def rbrace : Char := Char.ofNat 125

/-- `shlex.whitespace`: exactly space, tab, carriage return, newline. -/
def isWSCh (c : Char) : Bool :=
  c = ' ' || c = '\t' || c = '\r' || c = '\n'

/-- The characters `shlex._find_unsafe` treats as safe: ASCII letters,
digits, underscore, at-sign, percent, plus, equals, colon, comma, dot,
slash and dash (the regex is compiled with `re.ASCII`). -/
def isSafeCh (c : Char) : Bool :=
  (('a' ≤ c && c ≤ 'z') || ('A' ≤ c && c ≤ 'Z') || ('0' ≤ c && c ≤ '9')) ||
  (c = '_' || c = '@' || c = '%' || c = '+' || c = '=' ||
   c = ':' || c = ',' || c = '.' || c = '/' || c = '-')

/-- The characters stripped by `str.strip()`: exactly those for which
Python's `str.isspace()` holds — the control range x09..x0d, the
separator controls x1c..x1f, space, next-line x85, no-break space xa0,
ogham space u1680, the en/em space range u2000..u200a, the line and
paragraph separators u2028 and u2029, narrow no-break space u202f,
medium mathematical space u205f, and ideographic space u3000. -/
def isPyWS (c : Char) : Bool :=
  ('\x09' ≤ c && c ≤ '\x0d') ||
  (Char.ofNat 0x1c ≤ c && c ≤ Char.ofNat 0x1f) ||
  c = ' ' || c = Char.ofNat 0x85 || c = Char.ofNat 0xa0 ||
  c = Char.ofNat 0x1680 ||
  (Char.ofNat 0x2000 ≤ c && c ≤ Char.ofNat 0x200a) ||
  c = Char.ofNat 0x2028 || c = Char.ofNat 0x2029 ||
  c = Char.ofNat 0x202f || c = Char.ofNat 0x205f || c = Char.ofNat 0x3000

/-- `str.strip()` on the character list. -/
def pyStripL (l : List Char) : List Char :=
  ((l.dropWhile isPyWS).reverse.dropWhile isPyWS).reverse

/-- `str.strip()`. -/
def pyStrip (s : String) : String := String.mk (pyStripL s.toList)

/-! ### `shlex.split` (POSIX mode, `whitespace_split=True`)

The CPython tokenizer is a character automaton.  Its modes: skipping
whitespace (state `' '`), inside a word (state `'a'`), inside a single or
double quote, or just after a backslash (remembering whether the
backslash occurred in a word or inside a double quote; single quotes are
fully literal because `'` is not in `shlex.escapedquotes`). -/

/-- Tokenizer mode of the `shlex` automaton. -/
inductive SMode where
  | ws
  | word
  | squote
  | dquote
  | escWord
  | escDquote
deriving DecidableEq, Repr

/-- Full tokenizer state: mode, current token, the `quoted` flag (an
empty token is emitted only if it came from quotes), finished tokens. -/
structure SState where
  mode : SMode
  tok : List Char
  quoted : Bool
  acc : List (List Char)
deriving DecidableEq, Repr

/-- One character step of `shlex.read_token` (POSIX, `whitespace_split`,
no comment characters, no punctuation characters). -/
def shlexStep (st : SState) (c : Char) : SState :=
  match st.mode with
  | SMode.ws =>
      if isWSCh c then st
      else if c = sqCh then { st with mode := SMode.squote }
      else if c = dqCh then { st with mode := SMode.dquote }
      else if c = bsCh then { st with mode := SMode.escWord }
      else { st with mode := SMode.word, tok := st.tok ++ [c] }
  | SMode.word =>
      if isWSCh c then
        if st.tok.isEmpty && !st.quoted then { st with mode := SMode.ws }
        else { mode := SMode.ws, tok := [], quoted := false, acc := st.acc ++ [st.tok] }
      else if c = sqCh then { st with mode := SMode.squote }
      else if c = dqCh then { st with mode := SMode.dquote }
      else if c = bsCh then { st with mode := SMode.escWord }
      else { st with tok := st.tok ++ [c] }
  | SMode.squote =>
      if c = sqCh then { st with mode := SMode.word, quoted := true }
      else { st with tok := st.tok ++ [c], quoted := true }
  | SMode.dquote =>
      if c = dqCh then { st with mode := SMode.word, quoted := true }
      else if c = bsCh then { st with mode := SMode.escDquote, quoted := true }
      else { st with tok := st.tok ++ [c], quoted := true }
  | SMode.escWord => { st with mode := SMode.word, tok := st.tok ++ [c] }
  | SMode.escDquote =>
      if c = dqCh || c = bsCh then { st with mode := SMode.dquote, tok := st.tok ++ [c] }
      else { st with mode := SMode.dquote, tok := st.tok ++ [bsCh, c] }

/-- Initial tokenizer state. -/
def shlexInit : SState := ⟨SMode.ws, [], false, []⟩

/-- Run the automaton over a character list. -/
def runShlex (st : SState) (cs : List Char) : SState := cs.foldl shlexStep st

/-- End-of-input handling: an unterminated quote raises
`No closing quotation`, a trailing backslash raises
`No escaped character`; otherwise the pending token is emitted when it is
non-empty or quoted. -/
def shlexFinish (st : SState) : Option (List (List Char)) :=
  match st.mode with
  | SMode.ws => some st.acc
  | SMode.word =>
      if st.tok.isEmpty && !st.quoted then some st.acc else some (st.acc ++ [st.tok])
  | _ => none

/-- `shlex.split` on a character list. -/
def shlexSplitL (cs : List Char) : Option (List (List Char)) :=
  shlexFinish (runShlex shlexInit cs)

/-- `shlex.split`. -/
def shlexSplit (s : String) : Option (List String) :=
  (shlexSplitL s.toList).map (List.map String.mk)

/-! ### `shlex.quote` and `shlex.join` -/

/-- `str.replace` payload of `shlex.quote`: each single quote becomes
the five characters quote, double-quote, quote, double-quote, quote. -/
def replQuoteCh (c : Char) : List Char :=
  if c = sqCh then [sqCh, dqCh, sqCh, dqCh, sqCh] else [c]

/-- `shlex.quote` on a character list: empty strings become a pair of
quotes, fully safe strings pass unchanged, anything else is wrapped in
single quotes with embedded single quotes escaped. -/
def shQuoteL (s : List Char) : List Char :=
  if s.isEmpty then [sqCh, sqCh]
  else if s.all isSafeCh then s
  else sqCh :: ((s.map replQuoteCh).flatten ++ [sqCh])

/-- `shlex.quote`. -/
def shQuote (s : String) : String := String.mk (shQuoteL s.toList)

/-- `shlex.join`: quote each argument and join with single spaces. -/
def shlexJoin (l : List String) : String :=
  String.mk (List.intercalate [' '] (l.map fun x => shQuoteL x.toList))

/-! ### `str.format` with one positional `\x7b\x7d` placeholder

`MainMenu.show_preview` calls `command_template.format(safe_input)`.
The templates contain no braces other than their placeholder (checked in
the catalog theorems), so the substitution is: replace the first
occurrence of the placeholder by the argument; a template without a
placeholder is returned unchanged (`str.format` ignores unused
arguments). -/
def formatOne : List Char → List Char → List Char
  | [], _ => []
  | [c], _ => [c]
  | c1 :: c2 :: rest, arg =>
      if c1 = lbrace && c2 = rbrace then arg ++ rest
      else c1 :: formatOne (c2 :: rest) arg

/-- Number of (non-overlapping) `\x7b\x7d` placeholders in a template,
as `template.count` of the two-character substring would report. -/
def countPlaceholders : List Char → Nat
  | [] => 0
  | [_] => 0
  | c1 :: c2 :: rest =>
      if c1 = lbrace && c2 = rbrace then 1 + countPlaceholders rest
      else countPlaceholders (c2 :: rest)

/-! ### The operation catalogs

`CommandDef` is the dataclass of both `definitions.py` files; the plain
dataclass constructor performs no validation of any kind. -/

structure CommandDef where
  title : String
  description : String
  command_template : String
  is_risky : Bool := false
  needs_input : Bool := false
  input_prompt : Option String := none
deriving DecidableEq, Repr

/-- `COMMANDS["System Health"]["cleanup"]` of `syswiz/dnf/definitions.py`. -/
def cleanupDef : CommandDef :=
  { title := "Update & Cleanup"
    description := "Updates system and removes cached metadata."
    command_template := "sudo dnf upgrade --refresh && sudo dnf clean packages" }

/-- `COMMANDS["Repositories"]["enable_fusion"]` of `syswiz/dnf/definitions.py`. -/
def fusionDef : CommandDef :=
  { title := "Enable RPM Fusion"
    description := "Enables third-party repos for codecs/drivers."
    command_template := "sudo dnf install https://mirrors.rpmfusion.org/free/fedora/rpmfusion-free-release-$(rpm -E %fedora).noarch.rpm https://mirrors.rpmfusion.org/nonfree/fedora/rpmfusion-nonfree-release-$(rpm -E %fedora).noarch.rpm" }

/-- `COMMANDS["Install / Remove"]["search"]` of `syswiz/dnf/definitions.py`. -/
def searchDef : CommandDef :=
  { title := "Search Packages"
    description := "Search repositories by keyword."
    command_template := "dnf search \x7b\x7d"
    needs_input := true
    input_prompt := some "Enter keyword:" }

/-- `COMMANDS["Install / Remove"]["install"]` of `syswiz/dnf/definitions.py`. -/
def installDef : CommandDef :=
  { title := "Install Package"
    description := "Installs a specific package."
    command_template := "sudo dnf install \x7b\x7d"
    needs_input := true
    input_prompt := some "Enter package name:" }

/-- `COMMANDS["Install / Remove"]["remove"]` of `syswiz/dnf/definitions.py`. -/
def removeDef : CommandDef :=
  { title := "Remove Package"
    description := "Removes a package. WARNING: Check dependencies."
    command_template := "sudo dnf remove \x7b\x7d"
    is_risky := true
    needs_input := true
    input_prompt := some "Enter package name to remove:" }

/-- `COMMANDS["Install / Remove"]["reinstall"]` of `syswiz/dnf/definitions.py`. -/
def reinstallDef : CommandDef :=
  { title := "Reinstall Package"
    description := "Re-downloads and installs the current version."
    command_template := "sudo dnf reinstall \x7b\x7d"
    needs_input := true
    input_prompt := some "Enter package name:" }

/-- `COMMANDS["Discovery"]["info"]` of `syswiz/dnf/definitions.py`. -/
def infoDef : CommandDef :=
  { title := "Package Information"
    description := "Show details about a specific package."
    command_template := "dnf info \x7b\x7d"
    needs_input := true
    input_prompt := some "Enter package name:" }

/-- `COMMANDS` of `syswiz/dnf/definitions.py`: ordered categories of
ordered keyed operation definitions. -/
def COMMANDS : List (String × List (String × CommandDef)) :=
  [ ("System Health",
     [ ("update",
        { title := "Update System"
          description := "Downloads and installs updates. Safe standard procedure."
          command_template := "sudo dnf upgrade --refresh" }),
       ("cleanup", cleanupDef),
       ("broken",
        { title := "Check Broken Dependencies"
          description := "Scans for packages with missing requirements."
          command_template := "sudo dnf repoquery --unsatisfied" }),
       ("orphans",
        { title := "List Orphaned Packages"
          description := "Lists unneeded dependencies."
          command_template := "sudo dnf autoremove --assumeno" }) ]),
    ("Install / Remove",
     [ ("search", searchDef),
       ("install", installDef),
       ("remove", removeDef),
       ("reinstall", reinstallDef) ]),
    ("Discovery",
     [ ("list_installed",
        { title := "Show Installed Packages"
          description := "Lists all currently installed RPMs."
          command_template := "dnf list installed" }),
       ("info", infoDef) ]),
    ("Repositories",
     [ ("list_repos",
        { title := "List Enabled Repos"
          description := "Shows active software sources."
          command_template := "dnf repolist" }),
       ("enable_fusion", fusionDef) ]),
    ("Power / Risky",
     [ ("distro_sync",
        { title := "Distro Sync"
          description := "Synchronizes packages to latest versions. Can downgrade."
          command_template := "sudo dnf distro-sync"
          is_risky := true }),
       ("history_rollback",
        { title := "Rollback (Last Transaction)"
          description := "Undoes the last DNF action."
          command_template := "sudo dnf history undo last"
          is_risky := true }),
       ("clean_all",
        { title := "Clean All Caches"
          description := "Removes all cached metadata and packages."
          command_template := "sudo dnf clean all"
          is_risky := true }) ]) ]

/-- `COMMANDS` of the top-level `dnf/definitions.py` (same templates and
flags, slightly different titles/descriptions/prompts). -/
def COMMANDS_top : List (String × List (String × CommandDef)) :=
  [ ("System Health",
     [ ("update",
        { title := "Update System"
          description := "Downloads and installs updates for all packages. Safe standard procedure."
          command_template := "sudo dnf upgrade --refresh" }),
       ("cleanup",
        { title := "Update & Cleanup"
          description := "Updates system and then removes cached metadata to free space."
          command_template := "sudo dnf upgrade --refresh && sudo dnf clean packages" }),
       ("broken",
        { title := "Check Broken Dependencies"
          description := "Scans for packages with missing requirements."
          command_template := "sudo dnf repoquery --unsatisfied" }),
       ("orphans",
        { title := "List Orphaned Packages"
          description := "Lists packages installed as dependencies that are no longer needed."
          command_template := "sudo dnf autoremove --assumeno" }) ]),
    ("Install / Remove",
     [ ("search",
        { title := "Search Packages"
          description := "Search repositories for a package by keyword."
          command_template := "dnf search \x7b\x7d"
          needs_input := true
          input_prompt := some "Enter keyword to search:" }),
       ("install",
        { title := "Install Package"
          description := "Installs a specific package."
          command_template := "sudo dnf install \x7b\x7d"
          needs_input := true
          input_prompt := some "Enter package name:" }),
       ("remove",
        { title := "Remove Package"
          description := "Removes a package. WARNING: Check dependencies before confirming."
          command_template := "sudo dnf remove \x7b\x7d"
          is_risky := true
          needs_input := true
          input_prompt := some "Enter package name to remove:" }),
       ("reinstall",
        { title := "Reinstall Package"
          description := "Re-downloads and installs the current version of a package."
          command_template := "sudo dnf reinstall \x7b\x7d"
          needs_input := true
          input_prompt := some "Enter package name:" }) ]),
    ("Discovery",
     [ ("list_installed",
        { title := "Show Installed Packages"
          description := "Lists all currently installed RPMs."
          command_template := "dnf list installed" }),
       ("info",
        { title := "Package Information"
          description := "Show details about a specific package."
          command_template := "dnf info \x7b\x7d"
          needs_input := true
          input_prompt := some "Enter package name:" }) ]),
    ("Repositories",
     [ ("list_repos",
        { title := "List Enabled Repos"
          description := "Shows which software sources are currently active."
          command_template := "dnf repolist" }),
       ("enable_fusion",
        { title := "Enable RPM Fusion (Free/Nonfree)"
          description := "Enables the standard third-party repos for codecs and drivers."
          command_template := "sudo dnf install https://mirrors.rpmfusion.org/free/fedora/rpmfusion-free-release-$(rpm -E %fedora).noarch.rpm https://mirrors.rpmfusion.org/nonfree/fedora/rpmfusion-nonfree-release-$(rpm -E %fedora).noarch.rpm" }) ]),
    ("Power / Risky",
     [ ("distro_sync",
        { title := "Distro Sync"
          description := "Synchronizes installed packages to the latest available versions. Can downgrade packages."
          command_template := "sudo dnf distro-sync"
          is_risky := true }),
       ("history_rollback",
        { title := "Rollback (Last Transaction)"
          description := "Undoes the very last DNF action. Use with extreme caution."
          command_template := "sudo dnf history undo last"
          is_risky := true }),
       ("clean_all",
        { title := "Clean All Caches"
          description := "Removes all cached metadata and packages. Forces full redownload next time."
          command_template := "sudo dnf clean all"
          is_risky := true }) ]) ]

/-- All definitions of a catalog, in order. -/
def allDefs : List (String × List (String × CommandDef)) → List CommandDef
  | [] => []
  | (_, ops) :: rest => ops.map Prod.snd ++ allDefs rest

/-- `MainMenu.show_preview` of `syswiz/app.py`: quote the operator input
with `shlex.quote` and substitute it into the template with
`str.format`; with no (or falsy) input the template is used verbatim. -/
def renderPreview (d : CommandDef) (userInput : Option String) : String :=
  match userInput with
  | some u =>
      if u = "" then d.command_template
      else String.mk (formatOne d.command_template.toList (shQuoteL u.toList))
  | none => d.command_template

/-! ### The execution engine (`ExecutionScreen` of `syswiz/app.py`)

`run_process` splits the rendered command with `shlex.split`, launches it
with `subprocess.Popen` (argument vector, `shell=False`,
`stderr=subprocess.STDOUT`), writes each line to the log as
`line.strip()` while the process runs, then calls `finished` with the
exit status; any exception while launching or streaming logs
`Error: <message>` and calls `finished(1)`.  The child's observable
behaviour is either a launch error with a message, or termination with
an ordered list of produced lines and an exit status. -/

inductive ProcOutcome where
  | launchError (msg : String)
  | exited (lines : List String) (code : Int)
deriving DecidableEq, Repr

/-- The streaming loop: `for line in iter(process.stdout.readline, '')`
writes `line.strip()` to the sink, one line per iteration, in order. -/
def streamLoop (sink : List String) : List String → List String
  | [] => sink
  | l :: ls => streamLoop (sink ++ [pyStrip l]) ls

/-- `ExecutionScreen.finished`: the lines it appends to the log. -/
def finishedLines (code : Int) : List String :=
  if code = 0 then
    ["\n[green]✓ Operation Successful.[/green]",
     "\nClick \x27Back to Menu\x27 to continue."]
  else
    ["\n[red]✗ Operation Failed (Exit Code: " ++ toString code ++ ").[/red]",
     "\nClick \x27Back to Menu\x27 to continue."]

/-- Terminal report of one execution: everything written to the log, the
code handed to `finished`, and the re-enabled back button. -/
structure ExecReport where
  logLines : List String
  finalCode : Int
  backEnabled : Bool
deriving DecidableEq, Repr

/-- `ExecutionScreen.run_process` followed by `ExecutionScreen.finished`. -/
def run_process (o : ProcOutcome) : ExecReport :=
  match o with
  | ProcOutcome.exited lines code =>
      ⟨streamLoop [] lines ++ finishedLines code, code, true⟩
  | ProcOutcome.launchError msg =>
      ⟨["Error: " ++ msg] ++ finishedLines 1, 1, true⟩

/-- The process launches `ExecutionScreen` performs for a rendered
command string: exactly one `Popen` with the `shlex.split` argument
vector (no shell); if `shlex.split` raises, no process is launched. -/
def execLaunches (cmd : String) : List (List String) :=
  match shlexSplit cmd with
  | some argv => [argv]
  | none => []

/-! ### The top-level variant (`screens/execution.py`)

Its `ExecutionScreen.__init__` receives a definition holding an argument
list `cmd` (its catalog module is not under src; per the spec a
`commandTemplate` may be "an ordered argument list") and an optional raw
operator input; it appends a truthy input to the list, displays
`"sudo " + shlex.join(full_command)` and launches
`["sudo"] + full_command`. -/

/-- Modelled from the spec: the variant definition's command is carried
as an ordered argument list (`DnfCommand.cmd`); only this list reaches
the present `screens/execution.py`, whose construction is modelled
verbatim below. -/
def variantFullCommand (cmd : List String) (userInput : Option String) : List String :=
  match userInput with
  | some u => if u = "" then cmd else cmd ++ [u]
  | none => cmd

/-- `self.final_cmd_str = "sudo " + shlex.join(self.full_command)`. -/
def variantCmdStr (cmd : List String) (userInput : Option String) : String :=
  "sudo " ++ shlexJoin (variantFullCommand cmd userInput)

/-- `cmd_list = ["sudo"] + self.full_command`, handed to `Popen`. -/
def variantArgv (cmd : List String) (userInput : Option String) : List String :=
  "sudo" :: variantFullCommand cmd userInput

/-! ### Privilege guard and launcher (`syswiz/utils/system.py`,
`sys_wiz_launcher.py`) -/

/-- Outcome of running `sudo -v` on this host. -/
inductive SudoOutcome where
  | exitZero
  | exitNonZero
  | launchFail
deriving DecidableEq, Repr

/-- `ensure_sudo`: returns `True` immediately when already root;
otherwise `subprocess.check_call(["sudo", "-v"])` — success gives
`True`, `CalledProcessError` is caught and gives `False`, while a
failure to launch `sudo` at all (`FileNotFoundError`) is not caught and
propagates (`Except.error`). -/
def ensure_sudo (euid : Nat) (sudoRes : SudoOutcome) : Except Unit Bool :=
  if euid = 0 then Except.ok true
  else
    match sudoRes with
    | SudoOutcome.exitZero => Except.ok true
    | SudoOutcome.exitNonZero => Except.ok false
    | SudoOutcome.launchFail => Except.error ()

/-- How a run of `sys_wiz_launcher.main` ends. -/
inductive LaunchResult where
  | exitedNonFedora
  | exitedSudoFail
  | crashed
  | menuShown
deriving DecidableEq, Repr

/-- `main` of `sys-wiz/sys_wiz_launcher.py`: distro gate, then the sudo
gate, and only then `SysWizApp().run()` (the interactive menu). -/
def launcher_main (fedora : Bool) (euid : Nat) (sudoRes : SudoOutcome) : LaunchResult :=
  if !fedora then LaunchResult.exitedNonFedora
  else
    match ensure_sudo euid sudoRes with
    | Except.error _ => LaunchResult.crashed
    | Except.ok false => LaunchResult.exitedSudoFail
    | Except.ok true => LaunchResult.menuShown

/-! ### Breadcrumb navigation (`MainMenu` of the top-level `app.py`)

`current_menu` is always a mapping whose values are either sub-mappings
(categories) or command definitions; `on_list_view_selected` pushes the
key and descends on a mapping, and on "back" pops the last breadcrumb
and recomputes the pointer by replaying the remaining breadcrumbs from
`MENU_STRUCTURE`. -/

inductive MenuValue where
  | submenu (entries : List (String × MenuValue))
  | command (c : CommandDef)

/-- Ordered-dict lookup by key. -/
def lookupEntry : List (String × MenuValue) → String → Option MenuValue
  | [], _ => none
  | (k, v) :: rest, key => if k = key then some v else lookupEntry rest key

/-- The navigator's mutable pair: `breadcrumbs` and `current_menu`. -/
structure NavState where
  breadcrumbs : List String
  current : List (String × MenuValue)

/-- Selecting a category key: `self.breadcrumbs.append(selected_id);
self.current_menu = selected_obj` — valid only when the key names a
sub-mapping of the current level. -/
def navEnter (st : NavState) (k : String) : Option NavState :=
  match lookupEntry st.current k with
  | some (MenuValue.submenu m) => some ⟨st.breadcrumbs ++ [k], m⟩
  | _ => none

/-- `ptr = MENU_STRUCTURE; for b in self.breadcrumbs: ptr = ptr[b]` —
replaying a breadcrumb list from the root. -/
def replayPtr (cur : List (String × MenuValue)) : List String → Option (List (String × MenuValue))
  | [] => some cur
  | b :: bs =>
      match lookupEntry cur b with
      | some (MenuValue.submenu m) => replayPtr m bs
      | _ => none

/-- Selecting "back": pop the last breadcrumb, then recompute
`current_menu` by replaying the remaining breadcrumbs from the root (the
"back" row is only offered when `breadcrumbs` is non-empty). -/
def navGoBack (root : List (String × MenuValue)) (st : NavState) : Option NavState :=
  if st.breadcrumbs.isEmpty then none
  else (replayPtr root st.breadcrumbs.dropLast).map (fun m => ⟨st.breadcrumbs.dropLast, m⟩)

/-- One navigation request. -/
inductive NavStep where
  | enter (k : String)
  | back

/-- Run a sequence of navigation requests; `none` as soon as one is out
of bounds. -/
def navRun (root : List (String × MenuValue)) (st : NavState) : List NavStep → Option NavState
  | [] => some st
  | s :: rest =>
      match (match s with
             | NavStep.enter k => navEnter st k
             | NavStep.back => navGoBack root st) with
      | some st2 => navRun root st2 rest
      | none => none

/-! ### Input collection (`InputRequestScreen` of `syswiz/app.py`) -/

/-- What pressing Confirm does with the field value. -/
inductive InputOutcome where
  | reprompt
  | submit (raw : String)
deriving DecidableEq, Repr

/-- `on_button_pressed` for Confirm: `if val.strip(): dismiss;
callback(val)` — the raw, untrimmed value is forwarded iff it is
non-empty after stripping; otherwise the modal stays up. -/
def onConfirm (val : String) : InputOutcome :=
  if pyStrip val = "" then InputOutcome.reprompt else InputOutcome.submit val

/-- The values the preview callback receives from one Confirm press:
empty on a rejected submission. -/
def callbackCalls (val : String) : List String :=
  match onConfirm val with
  | InputOutcome.reprompt => []
  | InputOutcome.submit v => [v]

/-! ### Lemmas about the `shlex` automaton -/

theorem runShlex_append (st : SState) (l1 l2 : List Char) :
    runShlex st (l1 ++ l2) = runShlex (runShlex st l1) l2 :=
  List.foldl_append ..

theorem runShlex_cons (st : SState) (c : Char) (cs : List Char) :
    runShlex st (c :: cs) = runShlex (shlexStep st c) cs := rfl

/-- A safe character is none of the characters the tokenizer treats
specially. -/
theorem safe_char_facts (c : Char) (h : isSafeCh c = true) :
    isWSCh c = false ∧ c ≠ sqCh ∧ c ≠ dqCh ∧ c ≠ bsCh := by
  refine ⟨?_, ?_, ?_, ?_⟩
  · by_contra hw
    rw [Bool.not_eq_false] at hw
    have hw2 : c = ' ' ∨ c = '\t' ∨ c = '\r' ∨ c = '\n' := by
      simpa [isWSCh, or_assoc] using hw
    rcases hw2 with h1 | h1 | h1 | h1 <;> subst h1 <;> exact absurd h (by decide)
  · intro h1; subst h1; exact absurd h (by decide)
  · intro h1; subst h1; exact absurd h (by decide)
  · intro h1; subst h1; exact absurd h (by decide)

/-- Inside a word, a run of safe characters is appended to the current
token verbatim. -/
theorem runShlex_safe_word (l t : List Char) (q : Bool) (a : List (List Char))
    (h : ∀ c ∈ l, isSafeCh c = true) :
    runShlex ⟨SMode.word, t, q, a⟩ l = ⟨SMode.word, t ++ l, q, a⟩ := by
  induction l generalizing t with
  | nil => simp [runShlex]
  | cons c cs ih =>
      obtain ⟨hws, hsq, hdq, hbs⟩ := safe_char_facts c (h c (by simp))
      have hstep : shlexStep ⟨SMode.word, t, q, a⟩ c = ⟨SMode.word, t ++ [c], q, a⟩ := by
        simp [shlexStep, hws, hsq, hdq, hbs]
      rw [runShlex_cons, hstep, ih (t ++ [c]) (fun x hx => h x (by simp [hx]))]
      simp

/-- Inside a single quote, the `shlex.quote` body of a string followed
by the closing quote lands back in word mode with the string appended to
the token verbatim, with the `quoted` flag set. -/
theorem runShlex_squote_body (l t : List Char) (q : Bool) (a : List (List Char)) :
    runShlex ⟨SMode.squote, t, q, a⟩ ((l.map replQuoteCh).flatten ++ [sqCh]) =
      ⟨SMode.word, t ++ l, true, a⟩ := by
  induction l generalizing t q with
  | nil =>
      have h1 : runShlex ⟨SMode.squote, t, q, a⟩ [sqCh] = ⟨SMode.word, t, true, a⟩ := rfl
      simpa using h1
  | cons c cs ih =>
      by_cases hc : c = sqCh
      · subst hc
        have hrw : ((sqCh :: cs).map replQuoteCh).flatten ++ [sqCh] =
            [sqCh, dqCh, sqCh, dqCh, sqCh] ++ (((cs.map replQuoteCh).flatten) ++ [sqCh]) := by
          simp [replQuoteCh]
        have h5 : runShlex ⟨SMode.squote, t, q, a⟩ [sqCh, dqCh, sqCh, dqCh, sqCh] =
            ⟨SMode.squote, t ++ [sqCh], true, a⟩ := rfl
        rw [hrw, runShlex_append, h5, ih]
        simp
      · have hrw : ((c :: cs).map replQuoteCh).flatten ++ [sqCh] =
            c :: (((cs.map replQuoteCh).flatten) ++ [sqCh]) := by
          simp [replQuoteCh, hc]
        have hstep : shlexStep ⟨SMode.squote, t, q, a⟩ c = ⟨SMode.squote, t ++ [c], true, a⟩ := by
          simp [shlexStep, hc]
        rw [hrw, runShlex_cons, hstep, ih]
        simp

/-- The central quoting round trip: from whitespace state, the
`shlex.quote` of any string is consumed as exactly one token whose
content is the original string. -/
theorem shQuote_roundtrip (s : List Char) (a : List (List Char)) :
    shlexFinish (runShlex ⟨SMode.ws, [], false, a⟩ (shQuoteL s)) = some (a ++ [s]) := by
  by_cases hemp : s.isEmpty
  · have hs : s = [] := List.isEmpty_iff.mp hemp
    subst hs
    rfl
  · by_cases hsafe : s.all isSafeCh
    · have hq : shQuoteL s = s := by simp [shQuoteL, hemp, hsafe]
      rw [hq]
      obtain ⟨c, cs, rfl⟩ : ∃ c cs, s = c :: cs := by
        cases s with
        | nil => simp at hemp
        | cons c cs => exact ⟨c, cs, rfl⟩
      have hall := List.all_eq_true.mp hsafe
      obtain ⟨hws, hsq, hdq, hbs⟩ := safe_char_facts c (hall c (by simp))
      have h1 : shlexStep ⟨SMode.ws, [], false, a⟩ c = ⟨SMode.word, [c], false, a⟩ := by
        simp [shlexStep, hws, hsq, hdq, hbs]
      rw [runShlex_cons, h1,
        runShlex_safe_word cs [c] false a (fun x hx => hall x (by simp [hx]))]
      simp [shlexFinish]
    · have hq : shQuoteL s = sqCh :: ((s.map replQuoteCh).flatten ++ [sqCh]) := by
        simp [shQuoteL, hemp, hsafe]
      have h1 : shlexStep ⟨SMode.ws, [], false, a⟩ sqCh = ⟨SMode.squote, [], false, a⟩ := rfl
      rw [hq, runShlex_cons, h1, runShlex_squote_body]
      simp [shlexFinish]

/-! ### Lemmas about `formatOne` -/

/-- Substitution into a template that is a brace-free prefix followed by
the placeholder. -/
theorem formatOne_append_ph (pre arg : List Char) (h : ∀ c ∈ pre, c ≠ lbrace) :
    formatOne (pre ++ [lbrace, rbrace]) arg = pre ++ arg := by
  induction pre with
  | nil => simp [formatOne]
  | cons c pre ih =>
      have hc : c ≠ lbrace := h c (by simp)
      cases pre with
      | nil => simp [formatOne, hc]
      | cons c2 pre2 =>
          have h2 : ∀ x ∈ c2 :: pre2, x ≠ lbrace := fun x hx => h x (by simp [hx])
          have hmid := ih h2
          simp only [List.cons_append] at hmid ⊢
          rw [formatOne, if_neg (by simp [hc]), hmid]

/-- A template without any left brace is left unchanged by `str.format`
(the argument is ignored). -/
theorem formatOne_no_brace (l arg : List Char) (h : ∀ c ∈ l, c ≠ lbrace) :
    formatOne l arg = l := by
  induction l with
  | nil => rfl
  | cons c pre ih =>
      have hc : c ≠ lbrace := h c (by simp)
      cases pre with
      | nil => rfl
      | cons c2 pre2 =>
          have h2 : ∀ x ∈ c2 :: pre2, x ≠ lbrace := fun x hx => h x (by simp [hx])
          rw [formatOne, if_neg (by simp [hc]), ih h2]

/-! ### The rendered-command splitting lemma -/

/-- `String.mk` undoes `String.toList`. -/
theorem string_mk_toList (s : String) : String.mk s.toList = s := rfl

/-- For a needs-input definition whose template is a brace-free prefix
followed by the single placeholder, rendering any operator input and
splitting the result yields the template's own tokens with the raw input
appended as one final argument. -/
theorem render_split (d : CommandDef) (base : List Char) (toks : List (List Char))
    (s : String) (hs : ¬ s = "")
    (htmpl : d.command_template.toList = base ++ [lbrace, rbrace])
    (hbrace : ∀ c ∈ base, c ≠ lbrace)
    (hrun : runShlex shlexInit base = ⟨SMode.ws, [], false, toks⟩) :
    shlexSplit (renderPreview d (some s)) = some (toks.map String.mk ++ [s]) := by
  have hrender : renderPreview d (some s) =
      String.mk (formatOne d.command_template.toList (shQuoteL s.toList)) := by
    simp [renderPreview, hs]
  rw [hrender, htmpl, formatOne_append_ph base _ hbrace]
  show (shlexFinish (runShlex shlexInit ((String.mk (base ++ shQuoteL s.toList)).toList))).map _ = _
  have hlist : (String.mk (base ++ shQuoteL s.toList)).toList = base ++ shQuoteL s.toList := rfl
  rw [hlist, runShlex_append, hrun, shQuote_roundtrip]
  simp [string_mk_toList]

/-! ### Lemmas about the execution stream -/

/-- The streaming loop delivers exactly the produced lines, stripped, in
production order, appended to whatever the sink already holds. -/
theorem streamLoop_eq_map (lines : List String) :
    ∀ sink, streamLoop sink lines = sink ++ lines.map pyStrip := by
  induction lines with
  | nil => intro sink; simp [streamLoop]
  | cons l ls ih => intro sink; rw [streamLoop, ih]; simp

/-- The success line differs from every failure line (they disagree at
the third character). -/
theorem success_ne_failLine (code : Int) :
    ("\n[green]✓ Operation Successful.[/green]" : String) ≠
      "\n[red]✗ Operation Failed (Exit Code: " ++ toString code ++ ").[/red]" := by
  intro h
  have hL : ("\n[green]✓ Operation Successful.[/green]" : String).data.get? 2 = some 'g' := rfl
  have hR : ("\n[red]✗ Operation Failed (Exit Code: " ++ toString code ++
      ").[/red]").data.get? 2 = some 'r' := by
    rw [String.data_append, String.data_append]
    rfl
  rw [h, hR] at hL
  simp at hL

/-! ### Lemmas about breadcrumb navigation -/

/-- Replaying one more breadcrumb is one more indexing step at the end. -/
theorem replayPtr_snoc (root : List (String × MenuValue)) (bs : List String) (k : String) :
    replayPtr root (bs ++ [k]) =
      (replayPtr root bs).bind (fun cur =>
        match lookupEntry cur k with
        | some (MenuValue.submenu m) => some m
        | _ => none) := by
  induction bs generalizing root with
  | nil =>
      show replayPtr root [k] = _
      cases hl : lookupEntry root k with
      | none => simp [replayPtr, hl]
      | some v => cases v <;> simp [replayPtr, hl]
  | cons b bs ih =>
      simp only [List.cons_append, replayPtr]
      cases hl : lookupEntry root b with
      | none => simp
      | some v => cases v with
        | submenu m => exact ih m
        | command c => simp

/-- The navigation invariant is preserved by every in-bounds request
sequence: replaying the breadcrumbs from the root recomputes the current
level. -/
theorem navRun_preserves (steps : List NavStep) :
    ∀ (root : List (String × MenuValue)) (st st2 : NavState),
      replayPtr root st.breadcrumbs = some st.current →
      navRun root st steps = some st2 →
      replayPtr root st2.breadcrumbs = some st2.current := by
  induction steps with
  | nil =>
      intro root st st2 hinv h
      simp only [navRun, Option.some.injEq] at h
      rw [← h]
      exact hinv
  | cons s rest ih =>
      intro root st st2 hinv h
      cases s with
      | enter k =>
          simp only [navRun] at h
          cases he : navEnter st k with
          | none => rw [he] at h; exact absurd h (by simp)
          | some stm =>
              rw [he] at h
              have hinv2 : replayPtr root stm.breadcrumbs = some stm.current := by
                unfold navEnter at he
                cases hl : lookupEntry st.current k with
                | none => rw [hl] at he; exact absurd he (by simp)
                | some v =>
                    cases v with
                    | submenu m =>
                        rw [hl] at he
                        simp only [Option.some.injEq] at he
                        rw [← he]
                        rw [replayPtr_snoc, hinv]
                        simp [hl]
                    | command c => rw [hl] at he; exact absurd he (by simp)
              exact ih root stm st2 hinv2 h
      | back =>
          simp only [navRun] at h
          cases he : navGoBack root st with
          | none => rw [he] at h; exact absurd h (by simp)
          | some stm =>
              rw [he] at h
              have hinv2 : replayPtr root stm.breadcrumbs = some stm.current := by
                unfold navGoBack at he
                by_cases hb : st.breadcrumbs.isEmpty
                · rw [if_pos hb] at he; exact absurd he (by simp)
                · rw [if_neg hb] at he
                  rw [Option.map_eq_some'] at he
                  obtain ⟨m, hm, hstm⟩ := he
                  rw [← hstm]
                  exact hm
              exact ih root stm st2 hinv2 h

/-- On a state satisfying the replay invariant, going back immediately
after entering a category restores the pre-enter state exactly. -/
theorem goBack_undoes_enter (root : List (String × MenuValue)) (st st2 : NavState) (k : String)
    (hinv : replayPtr root st.breadcrumbs = some st.current)
    (he : navEnter st k = some st2) :
    navGoBack root st2 = some st := by
  unfold navEnter at he
  cases hl : lookupEntry st.current k with
  | none => rw [hl] at he; exact absurd he (by simp)
  | some v =>
      cases v with
      | command c => rw [hl] at he; exact absurd he (by simp)
      | submenu m =>
          rw [hl] at he
          simp only [Option.some.injEq] at he
          subst he
          unfold navGoBack
          have hne : (st.breadcrumbs ++ [k] : List String).isEmpty = false := by
            simp
          rw [show (⟨st.breadcrumbs ++ [k], m⟩ : NavState).breadcrumbs = st.breadcrumbs ++ [k] from rfl,
            hne, List.dropLast_concat, hinv]
          simp

/-! ## The claims -/

/-- C2: For every operation definition in the catalog (both
`definitions.py` files), `needs_input` is true iff its
`command_template` contains exactly one placeholder, and a definition
with `needs_input` false contains zero placeholders. -/
theorem c2_catalog_placeholder_invariant :
    ∀ d ∈ allDefs COMMANDS ++ allDefs COMMANDS_top,
      (d.needs_input = true ↔ countPlaceholders d.command_template.toList = 1)
      ∧ (d.needs_input = false → countPlaceholders d.command_template.toList = 0) := by
  decide

/-- C5: Entering the interactive menu implies the privilege gate
succeeded beforehand (already root, or `sudo -v` exited 0); a refused or
failed elevation ends the session before the menu is ever shown. -/
theorem c5_privilege_gate :
    ∀ (fedora : Bool) (euid : Nat) (s : SudoOutcome),
      (launcher_main fedora euid s = LaunchResult.menuShown ↔
        (fedora = true ∧ ensure_sudo euid s = Except.ok true))
      ∧ (ensure_sudo euid s = Except.ok true ↔ (euid = 0 ∨ s = SudoOutcome.exitZero)) := by
  intro f e s
  by_cases he : e = 0 <;> cases s <;> cases f <;>
    simp [launcher_main, ensure_sudo, he]

/-- C6: The execution engine delivers the child's output lines to the
sink one by one (each loop iteration writes one stripped line), in
exactly the production order, and no line is dropped whatever the exit
status: the delivered sequence is the stripped image of the produced
sequence, of the same length, followed only by the terminal report
lines. -/
theorem c6_stream_order_no_drop :
    ∀ (lines : List String) (code : Int),
      streamLoop [] lines = lines.map pyStrip
      ∧ (streamLoop [] lines).length = lines.length
      ∧ (run_process (ProcOutcome.exited lines code)).logLines
          = lines.map pyStrip ++ finishedLines code := by
  intro lines code
  refine ⟨by simpa using streamLoop_eq_map lines [], ?_, ?_⟩
  · rw [streamLoop_eq_map lines []]
    simp
  · show streamLoop [] lines ++ finishedLines code = _
    rw [streamLoop_eq_map lines []]
    simp

/-- C8: A submission that is empty after trimming is rejected (the modal
stays up, the callback never fires, so the value never reaches the
command builder); a submission that is non-empty after trimming is
forwarded raw and unmodified. -/
theorem c8_input_validation :
    ∀ val : String,
      (pyStrip val = "" →
        onConfirm val = InputOutcome.reprompt ∧ callbackCalls val = [])
      ∧ (pyStrip val ≠ "" →
        onConfirm val = InputOutcome.submit val ∧ callbackCalls val = [val]) := by
  intro val
  by_cases h : pyStrip val = "" <;> simp [onConfirm, callbackCalls, h]

/-- C8 witness: whitespace-only input — ASCII spaces or a sole Unicode
no-break space, both stripped to nothing by `str.strip()` — is rejected
with no callback; an input that trims non-empty is forwarded untouched,
surrounding whitespace included. -/
theorem c8_input_validation_witness :
    (onConfirm "   " = InputOutcome.reprompt ∧ callbackCalls "   " = [])
    ∧ (onConfirm "\u00A0" = InputOutcome.reprompt ∧ callbackCalls "\u00A0" = [])
    ∧ (onConfirm " a b " = InputOutcome.submit " a b "
       ∧ callbackCalls " a b " = [" a b "]) :=
  ⟨(c8_input_validation "   ").1 (by decide),
   (c8_input_validation "\u00A0").1 (by decide),
   (c8_input_validation " a b ").2 (by decide)⟩

/-- C10: templates that embed shell syntax are split into a single
argument vector and launched exactly once without a shell: for
"Update & Cleanup" the tokens from the literal `&&` argument onward stay
inside the one vector (no second launch), and for "Enable RPM Fusion"
the dollar-parenthesis fragment is passed through character-for-character
(rejoining the argument vector with spaces restores the template), never
substituted. -/
theorem c10_no_shell_interpretation :
    execLaunches (renderPreview cleanupDef none) =
      [["sudo", "dnf", "upgrade", "--refresh", "&&", "sudo", "dnf", "clean", "packages"]]
    ∧ (renderPreview cleanupDef none).data.count '&' = 2
    ∧ String.intercalate " "
        ["sudo", "dnf", "upgrade", "--refresh", "&&", "sudo", "dnf", "clean", "packages"]
        = cleanupDef.command_template
    ∧ execLaunches (renderPreview fusionDef none) =
      [["sudo", "dnf", "install",
        "https://mirrors.rpmfusion.org/free/fedora/rpmfusion-free-release-$(rpm",
        "-E", "%fedora).noarch.rpm",
        "https://mirrors.rpmfusion.org/nonfree/fedora/rpmfusion-nonfree-release-$(rpm",
        "-E", "%fedora).noarch.rpm"]]
    ∧ String.intercalate " "
        ["sudo", "dnf", "install",
         "https://mirrors.rpmfusion.org/free/fedora/rpmfusion-free-release-$(rpm",
         "-E", "%fedora).noarch.rpm",
         "https://mirrors.rpmfusion.org/nonfree/fedora/rpmfusion-nonfree-release-$(rpm",
         "-E", "%fedora).noarch.rpm"]
        = fusionDef.command_template := by
  set_option maxRecDepth 10000 in
  refine ⟨by decide, by decide, ?_, by decide, ?_⟩ <;> decide

/-- C1: For every needs-input operation of the catalog and every
non-empty raw operator parameter — whitespace, quotes, semicolons and
other shell metacharacters included — splitting the rendered command
back into an argument vector yields the templated command's own tokens
followed by the raw parameter as one single literal argument; in
particular "Search Packages" with `my package; rm -rf /` yields exactly
the three-token vector and never a second command. -/
theorem c1_single_literal_argument :
    (∀ d ∈ (allDefs COMMANDS).filter (fun d => d.needs_input), ∀ s : String, s ≠ "" →
        shlexSplit (renderPreview d (some s)) =
          (shlexSplit (String.mk (formatOne d.command_template.toList []))).map
            (fun ts => ts ++ [s]))
    ∧ shlexSplit (renderPreview searchDef (some "my package; rm -rf /")) =
        some ["dnf", "search", "my package; rm -rf /"] := by
  constructor
  · intro d hd s hs
    have hlist : (allDefs COMMANDS).filter (fun d => d.needs_input) =
        [searchDef, installDef, removeDef, reinstallDef, infoDef] := rfl
    rw [hlist] at hd
    simp only [List.mem_cons, List.not_mem_nil, or_false] at hd
    rcases hd with rfl | rfl | rfl | rfl | rfl
    · rw [render_split searchDef "dnf search ".toList
        (["dnf", "search"].map String.toList) s hs rfl (by decide) rfl]
      rfl
    · rw [render_split installDef "sudo dnf install ".toList
        (["sudo", "dnf", "install"].map String.toList) s hs rfl (by decide) rfl]
      rfl
    · rw [render_split removeDef "sudo dnf remove ".toList
        (["sudo", "dnf", "remove"].map String.toList) s hs rfl (by decide) rfl]
      rfl
    · rw [render_split reinstallDef "sudo dnf reinstall ".toList
        (["sudo", "dnf", "reinstall"].map String.toList) s hs rfl (by decide) rfl]
      rfl
    · rw [render_split infoDef "dnf info ".toList
        (["dnf", "info"].map String.toList) s hs rfl (by decide) rfl]
      rfl
  · set_option maxRecDepth 10000 in decide

/-- C1 witness: the Install Package operation with the hostile input
keeps the whole string one argument. -/
theorem c1_single_literal_argument_witness :
    installDef ∈ (allDefs COMMANDS).filter (fun d => d.needs_input)
    ∧ ("my package; rm -rf /" : String) ≠ ""
    ∧ shlexSplit (renderPreview installDef (some "my package; rm -rf /")) =
        (shlexSplit (String.mk (formatOne installDef.command_template.toList []))).map
          (fun ts => ts ++ ["my package; rm -rf /"]) :=
  ⟨by decide, by decide,
   c1_single_literal_argument.1 installDef (by decide) "my package; rm -rf /" (by decide)⟩

/-- A needs-input definition whose template has no placeholder: the
dataclass constructor accepts it unchecked. -/
def badNeedsInputDef : CommandDef :=
  ⟨"t", "d", "dnf list", false, true, some "p"⟩

/-- A no-input definition whose template contains a placeholder: also
accepted unchecked. -/
def badNoInputDef : CommandDef :=
  ⟨"t2", "d2", "dnf search \x7b\x7d", false, false, none⟩

/-- C3 counterexample: catalog construction performs no structural
validation at all.  A `needs_input=true` definition without a
placeholder and a `needs_input=false` definition with one are both
constructed successfully by the plain dataclass constructor, and the
violation reaches runtime without any failure: rendering silently
returns the template (discarding the input) respectively leaves a
literal placeholder token in the argument vector. -/
theorem c3_counterexample_no_fail_fast :
    badNeedsInputDef.needs_input = true
    ∧ countPlaceholders badNeedsInputDef.command_template.toList = 0
    ∧ renderPreview badNeedsInputDef (some "x") = "dnf list"
    ∧ badNoInputDef.needs_input = false
    ∧ countPlaceholders badNoInputDef.command_template.toList = 1
    ∧ renderPreview badNoInputDef none = "dnf search \x7b\x7d"
    ∧ shlexSplit (renderPreview badNoInputDef none) = some ["dnf", "search", "\x7b\x7d"] := by
  decide

/-- C3 amended: no fail-fast validation exists — a violating definition
is constructed and rendered without error (the render ignores the input
when the placeholder is missing) — while every definition actually
shipped in either catalog does satisfy the placeholder invariant, so the
violation never arises in practice. -/
theorem c3_amended_no_validation :
    (∀ s : String, s ≠ "" →
        renderPreview badNeedsInputDef (some s) = badNeedsInputDef.command_template)
    ∧ (∀ d ∈ allDefs COMMANDS ++ allDefs COMMANDS_top,
        (d.needs_input = true → countPlaceholders d.command_template.toList = 1)
        ∧ (d.needs_input = false → countPlaceholders d.command_template.toList = 0)) := by
  constructor
  · intro s hs
    simp only [renderPreview, if_neg hs]
    rw [show badNeedsInputDef.command_template.toList = "dnf list".toList from rfl,
      formatOne_no_brace _ _ (by decide), string_mk_toList]
    rfl
  · decide

/-- C3 amended witness: a concrete violating render plus a concrete
catalog member satisfying the invariant. -/
theorem c3_amended_no_validation_witness :
    ("pkg" : String) ≠ ""
    ∧ renderPreview badNeedsInputDef (some "pkg") = badNeedsInputDef.command_template
    ∧ searchDef ∈ allDefs COMMANDS ++ allDefs COMMANDS_top
    ∧ countPlaceholders searchDef.command_template.toList = 1 :=
  ⟨by decide, c3_amended_no_validation.1 "pkg" (by decide),
   by decide,
   (c3_amended_no_validation.2 searchDef (by decide)).1 rfl⟩

/-- C4: exit status 0 is reported as success; any nonzero status is
reported as failure carrying exactly that code; a failed launch is
reported as a terminal failure with the launch-specific cause text and a
code of 1, never 0 and never success. -/
theorem c4_exit_status_reporting :
    ∀ (lines : List String) (code : Int) (msg : String),
      ((run_process (ProcOutcome.exited lines 0)).finalCode = 0
        ∧ (run_process (ProcOutcome.exited lines 0)).logLines
            = lines.map pyStrip ++
              ["\n[green]✓ Operation Successful.[/green]",
               "\nClick \x27Back to Menu\x27 to continue."])
      ∧ (code ≠ 0 →
          (run_process (ProcOutcome.exited lines code)).finalCode = code
          ∧ (run_process (ProcOutcome.exited lines code)).logLines
              = lines.map pyStrip ++
                ["\n[red]✗ Operation Failed (Exit Code: " ++ toString code ++ ").[/red]",
                 "\nClick \x27Back to Menu\x27 to continue."]
          ∧ "\n[green]✓ Operation Successful.[/green]" ∉ finishedLines code)
      ∧ ((run_process (ProcOutcome.launchError msg)).logLines
            = ["Error: " ++ msg,
               "\n[red]✗ Operation Failed (Exit Code: 1).[/red]",
               "\nClick \x27Back to Menu\x27 to continue."]
          ∧ (run_process (ProcOutcome.launchError msg)).finalCode = 1
          ∧ (run_process (ProcOutcome.launchError msg)).finalCode ≠ 0) := by
  intro lines code msg
  refine ⟨⟨rfl, ?_⟩, fun hc => ⟨rfl, ?_, ?_⟩, ⟨?_, rfl, by show (1 : Int) ≠ 0; decide⟩⟩
  · show streamLoop [] lines ++ finishedLines 0 = _
    rw [streamLoop_eq_map lines []]
    simp [finishedLines]
  · show streamLoop [] lines ++ finishedLines code = _
    rw [streamLoop_eq_map lines []]
    simp [finishedLines, hc]
  · simp only [finishedLines, if_neg hc, List.mem_cons, List.not_mem_nil, or_false]
    push_neg
    exact ⟨success_ne_failLine code, by decide⟩
  · show ["Error: " ++ msg] ++ finishedLines 1 = _
    rw [show finishedLines 1 =
      ["\n[red]✗ Operation Failed (Exit Code: 1).[/red]",
       "\nClick \x27Back to Menu\x27 to continue."] from by decide]
    rfl

/-- C4 witness: a run that exits 7 is reported as failure with code 7
and without the success line. -/
theorem c4_exit_status_reporting_witness :
    (7 : Int) ≠ 0
    ∧ ((run_process (ProcOutcome.exited ["ok"] 7)).finalCode = 7
       ∧ (run_process (ProcOutcome.exited ["ok"] 7)).logLines
           = ["ok"].map pyStrip ++
             ["\n[red]✗ Operation Failed (Exit Code: " ++ toString (7 : Int) ++ ").[/red]",
              "\nClick \x27Back to Menu\x27 to continue."]
       ∧ "\n[green]✓ Operation Successful.[/green]" ∉ finishedLines 7) :=
  ⟨by decide, (c4_exit_status_reporting ["ok"] 7 "x").2.1 (by decide)⟩

/-- C7: for every in-bounds sequence of enter and go-back requests from
the catalog root, replaying the breadcrumb list from the root yields
exactly the current level, and a go-back immediately after an enter
restores the pre-enter state (go-back recomputes the level by replay —
`navGoBack` is defined through `replayPtr` — not from cached parents). -/
theorem c7_breadcrumb_replay :
    (∀ (root : List (String × MenuValue)) (steps : List NavStep) (st : NavState),
        navRun root ⟨[], root⟩ steps = some st →
        replayPtr root st.breadcrumbs = some st.current)
    ∧ (∀ (root : List (String × MenuValue)) (st st2 : NavState) (k : String),
        replayPtr root st.breadcrumbs = some st.current →
        navEnter st k = some st2 →
        navGoBack root st2 = some st) := by
  constructor
  · intro root steps st h
    exact navRun_preserves steps root ⟨[], root⟩ st rfl h
  · intro root st st2 k hinv he
    exact goBack_undoes_enter root st st2 k hinv he

/-- A two-level demonstration catalog for the navigation witness. -/
def demoSub : List (String × MenuValue) := [("op", MenuValue.command searchDef)]

/-- Its root: one category over `demoSub`. -/
def demoRoot : List (String × MenuValue) := [("cat", MenuValue.submenu demoSub)]

/-- C7 witness: after entering "cat", replaying the breadcrumbs gives
the category level, and going back restores the root state. -/
theorem c7_breadcrumb_replay_witness :
    replayPtr demoRoot (NavState.mk ["cat"] demoSub).breadcrumbs
      = some (NavState.mk ["cat"] demoSub).current
    ∧ navGoBack demoRoot ⟨["cat"], demoSub⟩ = some ⟨[], demoRoot⟩ :=
  ⟨c7_breadcrumb_replay.1 demoRoot [NavStep.enter "cat"] ⟨["cat"], demoSub⟩ rfl,
   c7_breadcrumb_replay.2 demoRoot ⟨[], demoRoot⟩ ⟨["cat"], demoSub⟩ "cat" rfl rfl⟩

/-- C9 counterexample: the two implementations do not produce the same
final command.  For "Search Packages" with input `vim` (variant command
list: the template's words), the top-level variant builds the argument
vector `sudo dnf search vim` and a display string starting with `sudo `,
while the canonical implementation renders `dnf search vim` — the
variant unconditionally prepends `sudo`. -/
theorem c9_counterexample_not_equivalent :
    variantArgv ["dnf", "search"] (some "vim") = ["sudo", "dnf", "search", "vim"]
    ∧ shlexSplit (renderPreview searchDef (some "vim")) = some ["dnf", "search", "vim"]
    ∧ some (variantArgv ["dnf", "search"] (some "vim")) ≠
        shlexSplit (renderPreview searchDef (some "vim"))
    ∧ variantCmdStr ["dnf", "search"] (some "vim") = "sudo dnf search vim"
    ∧ variantCmdStr ["dnf", "search"] (some "vim") ≠ renderPreview searchDef (some "vim") := by
  set_option maxRecDepth 10000 in decide

/-- C9 amended: with the variant's command list taken as the canonical
template's words (minus any leading `sudo`), the two implementations
agree exactly on every `sudo`-prefixed needs-input operation — same
argument vector and same display string for install, remove and
reinstall — for every non-empty input; for the operations whose
canonical template does not begin with `sudo` (search, info) the
variant's vector is the canonical vector with `sudo` prepended, so the
two differ. -/
theorem c9_amended_equivalence :
    ∀ u : String, u ≠ "" →
      shlexSplit (renderPreview installDef (some u))
          = some (variantArgv ["dnf", "install"] (some u))
      ∧ renderPreview installDef (some u) = variantCmdStr ["dnf", "install"] (some u)
      ∧ shlexSplit (renderPreview removeDef (some u))
          = some (variantArgv ["dnf", "remove"] (some u))
      ∧ renderPreview removeDef (some u) = variantCmdStr ["dnf", "remove"] (some u)
      ∧ shlexSplit (renderPreview reinstallDef (some u))
          = some (variantArgv ["dnf", "reinstall"] (some u))
      ∧ renderPreview reinstallDef (some u) = variantCmdStr ["dnf", "reinstall"] (some u)
      ∧ (shlexSplit (renderPreview searchDef (some u))).map (fun a => "sudo" :: a)
          = some (variantArgv ["dnf", "search"] (some u))
      ∧ (shlexSplit (renderPreview infoDef (some u))).map (fun a => "sudo" :: a)
          = some (variantArgv ["dnf", "info"] (some u)) := by
  intro u hu
  have hfc : ∀ cmd : List String, variantFullCommand cmd (some u) = cmd ++ [u] := by
    intro cmd
    simp [variantFullCommand, hu]
  refine ⟨?_, ?_, ?_, ?_, ?_, ?_, ?_, ?_⟩
  · rw [render_split installDef "sudo dnf install ".toList
      (["sudo", "dnf", "install"].map String.toList) u hu rfl (by decide) rfl,
      variantArgv, hfc]
    rfl
  · have hL : renderPreview installDef (some u) =
        String.mk ("sudo dnf install ".toList ++ shQuoteL u.toList) := by
      simp only [renderPreview, if_neg hu]
      rw [show installDef.command_template.toList =
        "sudo dnf install ".toList ++ [lbrace, rbrace] from rfl,
        formatOne_append_ph _ _ (by decide)]
    have hJ : shlexJoin ["dnf", "install", u] =
        String.mk ("dnf install ".toList ++ shQuoteL u.toList) := by
      apply congrArg String.mk
      show List.intercalate [' ']
        [shQuoteL "dnf".toList, shQuoteL "install".toList, shQuoteL u.toList] = _
      rw [show shQuoteL "dnf".toList = "dnf".toList from rfl,
        show shQuoteL "install".toList = "install".toList from rfl]
      simp [List.intercalate]
    have hR : variantCmdStr ["dnf", "install"] (some u) =
        String.mk ("sudo ".toList ++ ("dnf install ".toList ++ shQuoteL u.toList)) := by
      show "sudo " ++ shlexJoin (variantFullCommand ["dnf", "install"] (some u)) = _
      rw [hfc, show (["dnf", "install"] ++ [u]) = ["dnf", "install", u] from rfl, hJ]
      rfl
    rw [hL, hR]
    rfl
  · rw [render_split removeDef "sudo dnf remove ".toList
      (["sudo", "dnf", "remove"].map String.toList) u hu rfl (by decide) rfl,
      variantArgv, hfc]
    rfl
  · have hL : renderPreview removeDef (some u) =
        String.mk ("sudo dnf remove ".toList ++ shQuoteL u.toList) := by
      simp only [renderPreview, if_neg hu]
      rw [show removeDef.command_template.toList =
        "sudo dnf remove ".toList ++ [lbrace, rbrace] from rfl,
        formatOne_append_ph _ _ (by decide)]
    have hJ : shlexJoin ["dnf", "remove", u] =
        String.mk ("dnf remove ".toList ++ shQuoteL u.toList) := by
      apply congrArg String.mk
      show List.intercalate [' ']
        [shQuoteL "dnf".toList, shQuoteL "remove".toList, shQuoteL u.toList] = _
      rw [show shQuoteL "dnf".toList = "dnf".toList from rfl,
        show shQuoteL "remove".toList = "remove".toList from rfl]
      simp [List.intercalate]
    have hR : variantCmdStr ["dnf", "remove"] (some u) =
        String.mk ("sudo ".toList ++ ("dnf remove ".toList ++ shQuoteL u.toList)) := by
      show "sudo " ++ shlexJoin (variantFullCommand ["dnf", "remove"] (some u)) = _
      rw [hfc, show (["dnf", "remove"] ++ [u]) = ["dnf", "remove", u] from rfl, hJ]
      rfl
    rw [hL, hR]
    rfl
  · rw [render_split reinstallDef "sudo dnf reinstall ".toList
      (["sudo", "dnf", "reinstall"].map String.toList) u hu rfl (by decide) rfl,
      variantArgv, hfc]
    rfl
  · have hL : renderPreview reinstallDef (some u) =
        String.mk ("sudo dnf reinstall ".toList ++ shQuoteL u.toList) := by
      simp only [renderPreview, if_neg hu]
      rw [show reinstallDef.command_template.toList =
        "sudo dnf reinstall ".toList ++ [lbrace, rbrace] from rfl,
        formatOne_append_ph _ _ (by decide)]
    have hJ : shlexJoin ["dnf", "reinstall", u] =
        String.mk ("dnf reinstall ".toList ++ shQuoteL u.toList) := by
      apply congrArg String.mk
      show List.intercalate [' ']
        [shQuoteL "dnf".toList, shQuoteL "reinstall".toList, shQuoteL u.toList] = _
      rw [show shQuoteL "dnf".toList = "dnf".toList from rfl,
        show shQuoteL "reinstall".toList = "reinstall".toList from rfl]
      simp [List.intercalate]
    have hR : variantCmdStr ["dnf", "reinstall"] (some u) =
        String.mk ("sudo ".toList ++ ("dnf reinstall ".toList ++ shQuoteL u.toList)) := by
      show "sudo " ++ shlexJoin (variantFullCommand ["dnf", "reinstall"] (some u)) = _
      rw [hfc, show (["dnf", "reinstall"] ++ [u]) = ["dnf", "reinstall", u] from rfl, hJ]
      rfl
    rw [hL, hR]
    rfl
  · rw [render_split searchDef "dnf search ".toList
      (["dnf", "search"].map String.toList) u hu rfl (by decide) rfl,
      variantArgv, hfc]
    rfl
  · rw [render_split infoDef "dnf info ".toList
      (["dnf", "info"].map String.toList) u hu rfl (by decide) rfl,
      variantArgv, hfc]
    rfl

/-- C9 amended witness: with the hostile spaced input, the canonical
install render splits to exactly the variant's vector, and the remove
display strings coincide. -/
theorem c9_amended_equivalence_witness :
    ("a b" : String) ≠ ""
    ∧ shlexSplit (renderPreview installDef (some "a b"))
        = some (variantArgv ["dnf", "install"] (some "a b"))
    ∧ renderPreview removeDef (some "a b") = variantCmdStr ["dnf", "remove"] (some "a b") :=
  ⟨by decide, (c9_amended_equivalence "a b" (by decide)).1,
   (c9_amended_equivalence "a b" (by decide)).2.2.2.1⟩

/-- C2 witness: the Search Packages definition is in the combined
catalog and satisfies the placeholder criterion. -/
theorem c2_catalog_placeholder_invariant_witness :
    searchDef ∈ allDefs COMMANDS ++ allDefs COMMANDS_top
    ∧ (searchDef.needs_input = true ↔
        countPlaceholders searchDef.command_template.toList = 1) :=
  ⟨by decide, (c2_catalog_placeholder_invariant searchDef (by decide)).1⟩
